import Mathlib

/-!
Verification of the registration/confirmation core of the study_site
backend (`src/endpoints/register.rs` and its collaborators).

The handlers `register`, `confirm` and `activate_new_user` are embedded
directly from `src/endpoints/register.rs`.  The collaborators that the
repository does not ship under `src/` (the PASETO credential codec in
`auth::tokens`, the Mongo user-record store in `models::mongo`, the Redis
invalidation store, and `utils::emails::send_multipart_email`) are
modelled from the specification, as marked on each definition.
-/

namespace StudySite

/-- A Mongo object id, modelled as an opaque natural number. -/
structure ObjectId where
  oid : Nat
deriving DecidableEq

/-- The user record of the data model: identity, email, names, password
blob and the activation flag (`Option Bool`, mirroring the Rust
`is_active: Option<bool>` written by `activate_new_user`). -/
structure User where
  uid : ObjectId
  email : String
  password : String
  first_name : String
  last_name : String
  is_active : Option Bool
deriving DecidableEq

/-- The claim set carried by a confirmation token: purpose tag, subject
user id, random token identifier, issuance and expiry timestamps. -/
structure Claims where
  purpose : String
  subject_id : ObjectId
  token_id : String
  issued_at : Nat
  expires_at : Nat
deriving DecidableEq

/-- Modelled from the spec: the service's asymmetric signature over a
claim set (`auth::tokens` is not under `src/`).  The signature is an
arbitrary but fixed function of the claims; verification recomputes it,
so a token whose stored signature disagrees is rejected. -/
def sign (c : Claims) : Nat :=
  c.purpose.length + 2 * c.subject_id.oid + 3 * c.token_id.length
    + 5 * c.issued_at + 7 * c.expires_at + 11

/-- A decoded token: a claim set together with its signature. -/
structure Token where
  claims : Claims
  sig : Nat
deriving DecidableEq

/-- The verification failure causes of the credential codec and the
single-use check. -/
inductive TokenError
  | MalformedToken
  | SignatureInvalid
  | PurposeMismatch
  | Expired
  | TokenAlreadyUsedOrExpired
deriving DecidableEq

/-- Modelled from the spec: `issue(purpose, subject_id, ttl)` of the
credential codec (`auth::tokens` is not under `src/`).  Builds the claim
set with `issued_at = now`, `expires_at = now + ttl` and a caller-chosen
fresh `token_id`, and signs it. -/
def issue (purpose : String) (subject_id : ObjectId) (ttl : Nat) (now : Nat)
    (token_id : String) : Token :=
  let c : Claims :=
    { purpose := purpose, subject_id := subject_id, token_id := token_id,
      issued_at := now, expires_at := now + ttl }
  { claims := c, sig := sign c }

/-- Modelled from the spec: `verify(token_string, expected_purpose)` of
the credential codec (`auth::tokens` is not under `src/`).  The wire
input is `Option Token`: `none` stands for a string that fails to
decode (`MalformedToken`).  Checks signature, purpose tag and expiry
(`Expired` iff `now > expires_at`), in that order. -/
def verify (wire : Option Token) (expected_purpose : String) (now : Nat) :
    Except TokenError Claims :=
  match wire with
  | none => .error .MalformedToken
  | some t =>
    if t.sig ≠ sign t.claims then .error .SignatureInvalid
    else if t.claims.purpose ≠ expected_purpose then .error .PurposeMismatch
    else if t.claims.expires_at < now then .error .Expired
    else .ok t.claims

/-- Modelled from the spec: the single-use invalidation store (Redis,
not under `src/`), a map from token identifier to expiry timestamp. -/
def RedisStore : Type := String → Option Nat

/-- Modelled from the spec: `record(token_id, ttl)` of the invalidation
store — inserts the token id with its expiry. -/
def RedisStore.record (store : RedisStore) (token_id : String) (expiry : Nat) :
    RedisStore :=
  fun j => if j = token_id then some expiry else store j

/-- Modelled from the spec: `consume(token_id)` of the invalidation
store — atomically checks presence and deletes, returning `true` on
first use and `false` when the id is absent (already consumed, expired
or never recorded), together with the updated store. -/
def RedisStore.consume (store : RedisStore) (token_id : String) :
    Bool × RedisStore :=
  match store token_id with
  | some _ => (true, fun j => if j = token_id then none else store j)
  | none => (false, store)

/-- Modelled from the spec: `auth::tokens::verify_confirmation_token_pasetor`
(not under `src/`), the `complete_confirmation` verification step: codec
`verify` with expected purpose `"confirm"`, then `consume(token_id)` on
the invalidation store; a `false` consume fails with
`TokenAlreadyUsedOrExpired`.  On success returns the claims and the
updated store. -/
def verify_confirmation_token_pasetor (wire : Option Token) (store : RedisStore)
    (now : Nat) : Except TokenError (Claims × RedisStore) :=
  match verify wire "confirm" now with
  | .error e => .error e
  | .ok c =>
    match store.consume c.token_id with
    | (true, store') => .ok (c, store')
    | (false, _) => .error .TokenAlreadyUsedOrExpired

/-- Modelled from the spec: the user-record store (`models::mongo` is not
under `src/`), a map from object id to user record. -/
def MongoRepo : Type := ObjectId → Option User

/-- Modelled from the spec: `get(id)` of the user-record store. -/
def MongoRepo.get_user (repo : MongoRepo) (user_id : ObjectId) :
    Except String User :=
  match repo user_id with
  | some u => .ok u
  | none => .error "user not found"

/-- Modelled from the spec: `update(id, user)` of the user-record store —
replaces the record stored at `user_id`. -/
def MongoRepo.update_user (repo : MongoRepo) (user_id : ObjectId) (u : User) :
    MongoRepo :=
  fun j => if j = user_id then some u else repo j

/-- Modelled from the spec: `create(user)` of the user-record store —
persists the new user record under a fresh id with the activation flag
false, whatever the submitted form carried. -/
def MongoRepo.create_user (repo : MongoRepo) (fresh_id : ObjectId)
    (new_user : User) : MongoRepo :=
  fun j =>
    if j = fresh_id then
      some { new_user with uid := fresh_id, is_active := some false }
    else repo j

/-- Embedded from `activate_new_user` in `src/endpoints/register.rs`:
load the user record by id, set `is_active` to `Some(true)`, persist the
record; a missing user propagates the lookup error. -/
def activate_new_user (repo : MongoRepo) (user_id : ObjectId) :
    Except String MongoRepo :=
  match repo.get_user user_id with
  | .ok user => .ok (repo.update_user user_id { user with is_active := some true })
  | .error e => .error e

/-- The observable outcome of a handler: an HTTP response with a status
code, or a panic (an `.expect`/`.unwrap` firing, so no response is
delivered to the client). -/
inductive Outcome
  | response (status : Nat)
  | panicked
deriving DecidableEq

/-- The server state the two handlers touch: the user-record store, the
invalidation store, and the list of confirmation emails delivered so
far (each carrying its token). -/
structure ServerState where
  repo : MongoRepo
  redis : RedisStore
  emails : List Token

/-- A handler run: its outcome and the state it leaves behind. -/
structure HandlerResult where
  outcome : Outcome
  state : ServerState

/-- Modelled from the spec: `utils::emails::send_multipart_email` (not
under `src/`), which issues the confirmation token, records its id in
the invalidation store, and then dispatches the email; `emailOk` is
whether the dispatch succeeds (`delivered = none` on failure, after the
invalidation record is already written). -/
def send_multipart_email (emailOk : Bool) (user_id : ObjectId)
    (token_id : String) (ttl now : Nat) (redis : RedisStore) :
    RedisStore × Option Token :=
  let token := issue "confirm" user_id ttl now token_id
  (redis.record token_id (now + ttl), if emailOk then some token else none)

/-- Embedded from `register` in `src/endpoints/register.rs`.
`createOk` is whether `pool.create_user` succeeds (failure returns a 500
and nothing else is attempted); `redisOk` is whether `redis_pool.get()`
succeeds (failure panics through `.expect` after `map_err`); email
dispatch failure panics through `.expect("Error sending email")`; on
full success the handler answers 200. -/
def register (new_user : User) (fresh_id : ObjectId) (token_id : String)
    (ttl now : Nat) (createOk redisOk emailOk : Bool) (s : ServerState) :
    HandlerResult :=
  if createOk = false then
    { outcome := .response 500, state := s }
  else
    let repo' := s.repo.create_user fresh_id new_user
    if redisOk = false then
      { outcome := .panicked, state := { s with repo := repo' } }
    else
      let e := send_multipart_email emailOk fresh_id token_id ttl now s.redis
      match e.2 with
      | some tok =>
        { outcome := .response 200,
          state := { repo := repo', redis := e.1, emails := tok :: s.emails } }
      | none =>
        { outcome := .panicked,
          state := { repo := repo', redis := e.1, emails := s.emails } }

/-- Embedded from `confirm` in `src/endpoints/register.rs`.
`redisOk` is whether `redis_pool.get()` succeeds (failure panics through
`.expect` after `map_err`, so the error page built in the closure is
never delivered); any token-verification failure answers 500; on
verification success the subject user is activated, answering 200, and
an activation failure answers 500 with the token already consumed. -/
def confirm (wire : Option Token) (redisOk : Bool) (s : ServerState)
    (now : Nat) : HandlerResult :=
  if redisOk = false then
    { outcome := .panicked, state := s }
  else
    match verify_confirmation_token_pasetor wire s.redis now with
    | .error _ => { outcome := .response 500, state := s }
    | .ok (c, redis') =>
      match activate_new_user s.repo c.subject_id with
      | .ok repo' =>
        { outcome := .response 200,
          state := { s with repo := repo', redis := redis' } }
      | .error _ =>
        { outcome := .response 500, state := { s with redis := redis' } }

/-- Iterated `consume` calls on one token id: the results of `n`
successive calls starting from `store` (the serialization of `n`
concurrent calls, `consume` being atomic). -/
def consumeRuns (store : RedisStore) (token_id : String) : Nat → List Bool
  | 0 => []
  | n + 1 =>
    let r := store.consume token_id
    r.1 :: consumeRuns r.2 token_id n

/-! Sample concrete data used by the witnesses. -/

/-- A sample stored user record. -/
def sampleUser : User :=
  { uid := ⟨5⟩, email := "a@example.com", password := "pw", first_name := "A",
    last_name := "J", is_active := some false }

/-- A sample claim set for a confirmation token of `sampleUser`. -/
def sampleClaims : Claims :=
  { purpose := "confirm", subject_id := ⟨5⟩, token_id := "tid", issued_at := 0,
    expires_at := 10 }

/-- A sample correctly signed confirmation token. -/
def sampleToken : Token := { claims := sampleClaims, sig := sign sampleClaims }

/-- A sample invalidation store holding the sample token id. -/
def sampleRedis : RedisStore := fun j => if j = "tid" then some 10 else none

/-- The sample invalidation store after the sample token is consumed. -/
def sampleRedisConsumed : RedisStore :=
  fun j => if j = "tid" then none else sampleRedis j

/-- A sample user-record store holding the sample user. -/
def sampleRepo : MongoRepo :=
  fun j => if j = (⟨5⟩ : ObjectId) then some sampleUser else none

/-- A sample server state combining the sample stores. -/
def sampleState : ServerState :=
  { repo := sampleRepo, redis := sampleRedis, emails := [] }

/-! The claims. -/

/-- Claim C1: for every confirmation request whose token passes
verification (valid signature, purpose `"confirm"`, unexpired, not yet
consumed — i.e. `verify_confirmation_token_pasetor` succeeds) and whose
subject user exists in the user-record store, the confirm handler
returns success (200) and afterwards the stored user record has
`is_active = some true`. -/
theorem confirm_success_activates (wire : Option Token) (s : ServerState)
    (now : Nat) (c : Claims) (redis' : RedisStore) (u : User)
    (hv : verify_confirmation_token_pasetor wire s.redis now = .ok (c, redis'))
    (hu : s.repo c.subject_id = some u) :
    (confirm wire true s now).outcome = .response 200 ∧
    (confirm wire true s now).state.repo c.subject_id
      = some { u with is_active := some true } := by
  have hact : activate_new_user s.repo c.subject_id
      = .ok (s.repo.update_user c.subject_id { u with is_active := some true }) := by
    simp [activate_new_user, MongoRepo.get_user, hu]
  constructor
  · simp [confirm, hv, hact]
  · simp [confirm, hv, hact, MongoRepo.update_user]

/-- Witness for C1 at the sample data: the sample token verifies and
the sample user is activated. -/
theorem confirm_success_activates_witness :
    verify_confirmation_token_pasetor (some sampleToken) sampleState.redis 3
        = .ok (sampleClaims, sampleRedisConsumed) ∧
    sampleState.repo sampleClaims.subject_id = some sampleUser ∧
    ((confirm (some sampleToken) true sampleState 3).outcome = .response 200 ∧
      (confirm (some sampleToken) true sampleState 3).state.repo
          sampleClaims.subject_id
        = some { sampleUser with is_active := some true }) :=
  ⟨rfl, rfl,
    confirm_success_activates (some sampleToken) sampleState 3 sampleClaims
      sampleRedisConsumed sampleUser rfl rfl⟩

/-- Claim C2: whatever the caller supplies in the registration form
(including any `is_active` value), when user creation succeeds the new
user record is persisted with the activation flag false, in every
branch of the register handler. -/
theorem register_persists_inactive (new_user : User) (fresh_id : ObjectId)
    (token_id : String) (ttl now : Nat) (redisOk emailOk : Bool)
    (s : ServerState) :
    (register new_user fresh_id token_id ttl now true redisOk emailOk s).state.repo
        fresh_id
      = some { new_user with uid := fresh_id, is_active := some false } := by
  cases redisOk <;> cases emailOk <;>
    simp [register, MongoRepo.create_user, send_multipart_email]

/-- Claim C3: when user creation and token issuance succeed but the
email dispatch fails, the register request fails (the `.expect` on the
send result panics, so no success response is produced) even though the
user record is persisted and the token's invalidation record is
written; no email is delivered. -/
theorem register_email_failure_fails_after_side_effects (new_user : User)
    (fresh_id : ObjectId) (token_id : String) (ttl now : Nat)
    (s : ServerState) :
    (register new_user fresh_id token_id ttl now true true false s).outcome
        = .panicked ∧
    (register new_user fresh_id token_id ttl now true true false s).state.repo
        fresh_id
      = some { new_user with uid := fresh_id, is_active := some false } ∧
    (register new_user fresh_id token_id ttl now true true false s).state.redis
        token_id
      = some (now + ttl) ∧
    (register new_user fresh_id token_id ttl now true true false s).state.emails
      = s.emails := by
  refine ⟨rfl, ?_, ?_, rfl⟩ <;>
    simp [register, send_multipart_email, MongoRepo.create_user,
      RedisStore.record]

/-- Claim C4: every token-verification failure of the confirm handler
(malformed, bad signature, wrong purpose, expired, already used) yields
the same 500 response status, whatever the cause `e` was. -/
theorem confirm_verify_failure_500 (wire : Option Token) (s : ServerState)
    (now : Nat) (e : TokenError)
    (hv : verify_confirmation_token_pasetor wire s.redis now = .error e) :
    (confirm wire true s now).outcome = .response 500 := by
  simp [confirm, hv]

/-- Witness for C4: a malformed token (undecodable wire string) yields
a 500 from the confirm handler. -/
theorem confirm_verify_failure_500_witness :
    verify_confirmation_token_pasetor none sampleState.redis 0
        = .error .MalformedToken ∧
    (confirm none true sampleState 0).outcome = .response 500 :=
  ⟨rfl, confirm_verify_failure_500 none sampleState 0 .MalformedToken rfl⟩

/-- Claim C5: when persisting the new user record fails, the register
handler returns a 500 error and performs no further step: the whole
server state (user store, invalidation store, delivered emails) is
unchanged. -/
theorem register_create_failure_aborts (new_user : User) (fresh_id : ObjectId)
    (token_id : String) (ttl now : Nat) (redisOk emailOk : Bool)
    (s : ServerState) :
    register new_user fresh_id token_id ttl now false redisOk emailOk s
      = { outcome := .response 500, state := s } := rfl

/-- Claim C6: a successful `activate_new_user` changes only `is_active`
of the subject's stored record (which is still present, never deleted)
and leaves every other record untouched. -/
theorem activate_frame (repo : MongoRepo) (user_id : ObjectId) (u : User)
    (repo' : MongoRepo) (hu : repo user_id = some u)
    (ha : activate_new_user repo user_id = .ok repo') :
    repo' user_id = some { u with is_active := some true } ∧
    ∀ j, j ≠ user_id → repo' j = repo j := by
  have hact : activate_new_user repo user_id
      = .ok (repo.update_user user_id { u with is_active := some true }) := by
    simp [activate_new_user, MongoRepo.get_user, hu]
  rw [hact] at ha
  injection ha with hr
  subst hr
  constructor
  · simp [MongoRepo.update_user]
  · intro j hj
    simp [MongoRepo.update_user, hj]

/-- Witness for C6 at the sample data: the activated record keeps all
fields but `is_active`, and an unrelated id (7) is untouched. -/
theorem activate_frame_witness :
    sampleRepo ⟨5⟩ = some sampleUser ∧
    activate_new_user sampleRepo ⟨5⟩
        = .ok (sampleRepo.update_user ⟨5⟩
            { sampleUser with is_active := some true }) ∧
    (sampleRepo.update_user ⟨5⟩ { sampleUser with is_active := some true }) ⟨5⟩
        = some { sampleUser with is_active := some true } ∧
    (sampleRepo.update_user ⟨5⟩ { sampleUser with is_active := some true }) ⟨7⟩
        = sampleRepo ⟨7⟩ :=
  ⟨rfl, rfl,
    (activate_frame sampleRepo ⟨5⟩ sampleUser _ rfl rfl).1,
    (activate_frame sampleRepo ⟨5⟩ sampleUser _ rfl rfl).2 ⟨7⟩ (by decide)⟩

/-- Claim C7: verifying a freshly issued token with the same expected
purpose, at any time `t` before the ttl elapses, succeeds and returns
the claim set carrying the same user id. -/
theorem issue_verify_roundtrip (purpose : String) (user_id : ObjectId)
    (ttl now t : Nat) (token_id : String) (h : t ≤ now + ttl) :
    verify (some (issue purpose user_id ttl now token_id)) purpose t
      = .ok { purpose := purpose, subject_id := user_id, token_id := token_id,
              issued_at := now, expires_at := now + ttl } := by
  have h2 : ¬ (now + ttl < t) := Nat.not_lt.mpr h
  simp [verify, issue, h2]

/-- Witness for C7: a token issued at time 0 with ttl 10 verifies at
time 3 and returns subject id 5. -/
theorem issue_verify_roundtrip_witness :
    3 ≤ 0 + 10 ∧
    verify (some (issue "confirm" ⟨5⟩ 10 0 "tid")) "confirm" 3
      = .ok { purpose := "confirm", subject_id := ⟨5⟩, token_id := "tid",
              issued_at := 0, expires_at := 0 + 10 } :=
  ⟨by decide, issue_verify_roundtrip "confirm" ⟨5⟩ 10 0 3 "tid" (by decide)⟩

/-- Helper: `consume` on an absent token id reports false and leaves
the store unchanged, for every number of repetitions. -/
theorem consumeRuns_absent (store : RedisStore) (token_id : String) (n : Nat)
    (h : store token_id = none) :
    consumeRuns store token_id n = List.replicate n false := by
  induction n generalizing store with
  | zero => rfl
  | succ n ih =>
    simp [consumeRuns, RedisStore.consume, h, ih, List.replicate]

/-- Helper: a run of false results contains no true. -/
theorem count_true_replicate_false (m : Nat) :
    (List.replicate m false).count true = 0 := by
  induction m with
  | zero => rfl
  | succ m ih => simp [List.replicate, List.count_cons, ih]

/-- Claim C8: for a recorded token id, a sequence of `n ≥ 1` consume
calls (the serialization of n concurrent calls — `consume` is atomic)
returns true on the first call and false on every subsequent one, so
exactly one call succeeds. -/
theorem consume_exactly_once (store : RedisStore) (token_id : String)
    (e n : Nat) (h : store token_id = some e) (hn : 1 ≤ n) :
    consumeRuns store token_id n = true :: List.replicate (n - 1) false ∧
    (consumeRuns store token_id n).count true = 1 := by
  obtain ⟨m, rfl⟩ : ∃ m, n = m + 1 := ⟨n - 1, by omega⟩
  have key : consumeRuns store token_id (m + 1)
      = true :: List.replicate m false := by
    simp [consumeRuns, RedisStore.consume, h, consumeRuns_absent]
  refine ⟨by simpa using key, ?_⟩
  rw [key]
  simp [List.count_cons, count_true_replicate_false]

/-- Witness for C8: three consume calls on the sample store's recorded
token id yield true, false, false. -/
theorem consume_exactly_once_witness :
    sampleRedis "tid" = some 10 ∧ 1 ≤ 3 ∧
    (consumeRuns sampleRedis "tid" 3 = true :: List.replicate 2 false ∧
      (consumeRuns sampleRedis "tid" 3).count true = 1) :=
  ⟨rfl, by decide, consume_exactly_once sampleRedis "tid" 10 3 rfl (by decide)⟩

/-- Claim C9: in both handlers, a failure to obtain a connection from
the Redis pool ends in a panic (the `.expect` after `map_err` fires),
so the Internal Server Error page built in the `map_err` closure is
never delivered as a response. -/
theorem redis_pool_failure_panics (new_user : User) (fresh_id : ObjectId)
    (token_id : String) (ttl now : Nat) (emailOk : Bool) (wire : Option Token)
    (s : ServerState) :
    (register new_user fresh_id token_id ttl now true false emailOk s).outcome
        = .panicked ∧
    (confirm wire false s now).outcome = .panicked :=
  ⟨rfl, rfl⟩

/-- Claim C10: `activate_new_user` is idempotent — the first run turns
the stored record's flag on, and a second run succeeds and leaves the
store exactly as after the first. -/
theorem activate_idempotent (repo : MongoRepo) (user_id : ObjectId) (u : User)
    (h : repo user_id = some u) :
    activate_new_user repo user_id
        = .ok (repo.update_user user_id { u with is_active := some true }) ∧
    activate_new_user
        (repo.update_user user_id { u with is_active := some true }) user_id
      = .ok (repo.update_user user_id { u with is_active := some true }) := by
  constructor
  · simp [activate_new_user, MongoRepo.get_user, h]
  · have hfix :
        ((repo.update_user user_id { u with is_active := some true }).update_user
            user_id { u with is_active := some true })
          = repo.update_user user_id { u with is_active := some true } := by
      funext j
      by_cases hj : j = user_id <;> simp [MongoRepo.update_user, hj]
    have hget : (repo.update_user user_id { u with is_active := some true })
        user_id = some { u with is_active := some true } := by
      simp [MongoRepo.update_user]
    simp [activate_new_user, MongoRepo.get_user, hget, hfix]

/-- Witness for C10 at the sample data. -/
theorem activate_idempotent_witness :
    sampleRepo ⟨5⟩ = some sampleUser ∧
    (activate_new_user sampleRepo ⟨5⟩
        = .ok (sampleRepo.update_user ⟨5⟩
            { sampleUser with is_active := some true }) ∧
      activate_new_user
          (sampleRepo.update_user ⟨5⟩ { sampleUser with is_active := some true })
          ⟨5⟩
        = .ok (sampleRepo.update_user ⟨5⟩
            { sampleUser with is_active := some true })) :=
  ⟨rfl, activate_idempotent sampleRepo ⟨5⟩ sampleUser rfl⟩

end StudySite
